import Mathlib

/-!
Verification of the kernel-health-manager core: the metrics collector
(`backend/core/monitor.py`), the threshold-based health classifier
(`backend/core/analyzer.py`), and the broadcast loop with its session
endpoints (`backend/app.py`).  Python floats are modelled as rationals
(all thresholds and comparisons in the source are exact decimal values),
Python dicts with a fixed insertion order as association lists, and
Python exceptions as `Except` values.  Python f-string interpolation of
a numeric value is modelled by `toString` on the rational or natural
number.
-/

/-- Severity levels used by the analyzer (`"SAFE"`, `"WARNING"`, `"THREAT"`
string constants in `analyzer.py`). -/
inductive MetricStatus where
  | SAFE
  | WARNING
  | THREAT
deriving DecidableEq, Repr

/-- Numeric severity rank: SAFE < WARNING < THREAT (spec §3). -/
def MetricStatus.severity : MetricStatus → Nat
  | .SAFE => 0
  | .WARNING => 1
  | .THREAT => 2

/-- The more severe of two statuses (ties keep the left argument). -/
def statusMax (a b : MetricStatus) : MetricStatus :=
  if b.severity ≤ a.severity then a else b

/-- `cpu` sub-record of a metrics sample (`monitor.py`, lines 82-85). -/
structure CpuMetrics where
  usage_percent : ℚ
  temperature : ℚ
deriving DecidableEq, Repr

/-- `gpu` sub-record of a metrics sample (`monitor.py`, lines 69-73). -/
structure GpuMetrics where
  name : String
  usage : ℚ
  temp : ℚ
deriving DecidableEq, Repr

/-- `kernel` sub-record of a metrics sample (`monitor.py`, lines 87-92). -/
structure KernelMetrics where
  context_switches : Nat
  interrupts : Nat
  dpcs_stalls : Nat
  processes : Nat
deriving DecidableEq, Repr

/-- A full metrics sample as produced by `get_system_metrics`
(`monitor.py`, lines 80-93); `gpu` is `None` when no GPU is found. -/
structure MetricSample where
  timestamp : ℚ
  cpu : CpuMetrics
  gpu : Option GpuMetrics
  kernel : KernelMetrics
deriving DecidableEq, Repr

-- Threshold constants (`analyzer.py`, lines 4-11).
def TEMP_WARNING : ℚ := 80
def TEMP_CRITICAL : ℚ := 90
def LOAD_WARNING : ℚ := 80
def LOAD_CRITICAL : ℚ := 95
def DPC_CRITICAL : Nat := 500000
def CONTEXT_SWITCH_CRITICAL : Nat := 1000000

/-- A per-metric analysis entry: the `{"status": ..., "message": ...}`
dict returned by `analyze_metric`. -/
structure MetricAnalysis where
  status : MetricStatus
  message : String
deriving DecidableEq, Repr

/-- `analyze_metric` (`analyzer.py`, lines 13-25): status starts `SAFE`
with a normal message, is upgraded to `THREAT` when
`value >= critical_val`, else to `WARNING` when `value >= warning_val`. -/
def analyze_metric (metric_name : String) (value : ℚ)
    (warning_val critical_val : ℚ) : MetricAnalysis :=
  if value ≥ critical_val then
    { status := .THREAT
      message := "CRITICAL: " ++ metric_name ++ " is too high (" ++
        toString value ++ "). Immediate action required!" }
  else if value ≥ warning_val then
    { status := .WARNING
      message := "HIGH: " ++ metric_name ++ " is elevated. Check background tasks." }
  else
    { status := .SAFE
      message := "Normal " ++ metric_name ++ " usage." }

/-- The overall-status computation of `get_health_status`
(`analyzer.py`, lines 82-89): `THREAT` if any entry status is `THREAT`,
else `WARNING` if any is `WARNING`, else `SAFE`. -/
def overall_from_statuses (statuses : List MetricStatus) : MetricStatus :=
  if MetricStatus.THREAT ∈ statuses then .THREAT
  else if MetricStatus.WARNING ∈ statuses then .WARNING
  else .SAFE

/-- Result of `get_health_status`: the overall status plus the
`analysis_results` dict, modelled as an association list in insertion
order. -/
structure HealthStatus where
  status : MetricStatus
  details : List (String × MetricAnalysis)
deriving DecidableEq, Repr

/-- The kernel/stall analysis step of `get_health_status`
(`analyzer.py`, lines 60-79): a short-circuit chain producing exactly
one entry. -/
def kernel_entry (kernel : KernelMetrics) : String × MetricAnalysis :=
  if kernel.dpcs_stalls ≥ DPC_CRITICAL then
    ("kernel_stalls",
      { status := .THREAT
        message := "CRITICAL KERNEL STALLS: High DPC count (" ++
          toString kernel.dpcs_stalls ++ "). Drivers are stalling." })
  else if kernel.context_switches ≥ CONTEXT_SWITCH_CRITICAL then
    ("kernel_ctx",
      { status := .WARNING
        message := "WARNING: High context switching (" ++
          toString kernel.context_switches ++ ")." })
  else
    ("kernel_status",
      { status := .SAFE, message := "Kernel metrics nominal." })

/-- `get_health_status` (`analyzer.py`, lines 28-94): CPU entries always,
GPU entries only when `current_metrics.get('gpu')` is truthy (the
collector produces either `None` or a populated dict), then the single
kernel entry, then the overall status over all entry statuses. -/
def get_health_status (current_metrics : MetricSample) : HealthStatus :=
  let cpuEntries : List (String × MetricAnalysis) :=
    [("cpu_temp",
       analyze_metric "CPU Temperature" current_metrics.cpu.temperature
         TEMP_WARNING TEMP_CRITICAL),
     ("cpu_usage",
       analyze_metric "CPU Usage" current_metrics.cpu.usage_percent
         LOAD_WARNING LOAD_CRITICAL)]
  let withGpu : List (String × MetricAnalysis) :=
    match current_metrics.gpu with
    | some g =>
        cpuEntries ++
          [("gpu_temp",
             analyze_metric "GPU Temperature" g.temp TEMP_WARNING TEMP_CRITICAL),
           ("gpu_usage",
             analyze_metric "GPU Usage" g.usage LOAD_WARNING LOAD_CRITICAL)]
    | none => cpuEntries
  let analysis_results := withGpu ++ [kernel_entry current_metrics.kernel]
  { status := overall_from_statuses (analysis_results.map (fun p => p.2.status))
    details := analysis_results }

/-- The kernel-related entries of an analysis result: those whose key is
one of the three keys the kernel chain can emit. -/
def kernelEntriesOf (h : HealthStatus) : List (String × MetricAnalysis) :=
  h.details.filter
    (fun p => p.1 = "kernel_stalls" ∨ p.1 = "kernel_ctx" ∨ p.1 = "kernel_status")

/-- Keys of the entries in an analysis result, in insertion order. -/
def detailKeys (h : HealthStatus) : List String :=
  h.details.map Prod.fst

/-- Key/status pairs of the kernel-related entries of a result. -/
def kernelSummary (h : HealthStatus) : List (String × MetricStatus) :=
  (kernelEntriesOf h).map (fun p => (p.1, p.2.status))

/-- Statuses of all entries of a result, in insertion order. -/
def statusesOf (h : HealthStatus) : List MetricStatus :=
  h.details.map (fun p => p.2.status)

lemma kernel_entry_key (k : KernelMetrics) :
    (kernel_entry k).1 = "kernel_stalls" ∨ (kernel_entry k).1 = "kernel_ctx" ∨
      (kernel_entry k).1 = "kernel_status" := by
  unfold kernel_entry
  split_ifs <;> simp

lemma kernelEntriesOf_get_health_status (s : MetricSample) :
    kernelEntriesOf (get_health_status s) = [kernel_entry s.kernel] := by
  unfold kernelEntriesOf get_health_status
  rcases kernel_entry_key s.kernel with h | h | h <;>
    cases s.gpu <;>
      simp [List.filter_append, List.filter_cons, h]

/-- C1: for warning ≤ critical, `analyze_metric` returns SAFE when
value < warning, WARNING when warning ≤ value < critical, and THREAT
when value ≥ critical; both boundaries are inclusive. -/
theorem analyze_metric_boundary_classification
    (name : String) (value warning critical : ℚ) (h : warning ≤ critical) :
    (value < warning → (analyze_metric name value warning critical).status = .SAFE) ∧
    (warning ≤ value → value < critical →
      (analyze_metric name value warning critical).status = .WARNING) ∧
    (critical ≤ value → (analyze_metric name value warning critical).status = .THREAT) := by
  refine ⟨fun hlt => ?_, fun hw hc => ?_, fun hc => ?_⟩ <;>
    simp only [analyze_metric]
  · rw [if_neg (not_le.mpr (by linarith)), if_neg (not_le.mpr hlt)]
  · rw [if_neg (not_le.mpr hc), if_pos hw]
  · rw [if_pos hc]

/-- C1 witness: the classification at concrete inputs on each side of the
two boundaries, with thresholds 80 ≤ 90. -/
theorem analyze_metric_boundary_classification_witness :
    (80 : ℚ) ≤ 90 ∧
    (analyze_metric "CPU Temperature" 70 80 90).status = .SAFE ∧
    (analyze_metric "CPU Temperature" 80 80 90).status = .WARNING ∧
    (analyze_metric "CPU Temperature" 90 80 90).status = .THREAT :=
  ⟨by norm_num,
   (analyze_metric_boundary_classification "CPU Temperature" 70 80 90
     (by norm_num)).1 (by norm_num),
   (analyze_metric_boundary_classification "CPU Temperature" 80 80 90
     (by norm_num)).2.1 (by norm_num) (by norm_num),
   (analyze_metric_boundary_classification "CPU Temperature" 90 80 90
     (by norm_num)).2.2 (by norm_num)⟩

/-- C5 counterexample: at name "CPU Temperature", value 95, thresholds
(80, 90), the code's message is
"CRITICAL: CPU Temperature is too high (95). Immediate action required!",
not the spec's literal form "CPU Temperature critical: 95". -/
theorem analyze_metric_message_ne_spec_form :
    (analyze_metric "CPU Temperature" 95 80 90).message ≠
      "CPU Temperature critical: 95" := by
  decide

/-- C5 amended: the actual message forms of `analyze_metric` are
"CRITICAL: <name> is too high (<value>). Immediate action required!"
when value ≥ critical, "HIGH: <name> is elevated. Check background
tasks." when warning ≤ value < critical, and "Normal <name> usage."
otherwise. -/
theorem analyze_metric_messages
    (name : String) (value warning critical : ℚ) :
    (critical ≤ value →
      (analyze_metric name value warning critical).message =
        "CRITICAL: " ++ name ++ " is too high (" ++ toString value ++
          "). Immediate action required!") ∧
    (value < critical → warning ≤ value →
      (analyze_metric name value warning critical).message =
        "HIGH: " ++ name ++ " is elevated. Check background tasks.") ∧
    (value < critical → value < warning →
      (analyze_metric name value warning critical).message =
        "Normal " ++ name ++ " usage.") := by
  refine ⟨fun hc => ?_, fun hc hw => ?_, fun hc hw => ?_⟩ <;>
    simp only [analyze_metric]
  · rw [if_pos hc]
  · rw [if_neg (not_le.mpr hc), if_pos hw]
  · rw [if_neg (not_le.mpr hc), if_neg (not_le.mpr hw)]

/-- C5 witness: the critical-branch message at a concrete input. -/
theorem analyze_metric_messages_witness :
    (analyze_metric "CPU Temperature" 95 80 90).message =
      "CRITICAL: CPU Temperature is too high (95). Immediate action required!" :=
  ((analyze_metric_messages "CPU Temperature" 95 80 90).1 (by norm_num)).trans
    (by decide)

/-- A sample with DPC stalls exactly at the critical threshold and a
huge context-switch count, used as a concrete test input. -/
def sampleStall : MetricSample :=
  { timestamp := 0
    cpu := { usage_percent := 10, temperature := 40 }
    gpu := none
    kernel := { context_switches := 999999999, interrupts := 0
                dpcs_stalls := 500000, processes := 5 } }

/-- C2: the kernel analysis is a short-circuit chain emitting exactly one
entry: `kernel_stalls=THREAT` when dpc_stalls ≥ 500000 (and the result is
then independent of the context-switch value), else `kernel_ctx=WARNING`
when context_switches ≥ 1000000, else `kernel_status=SAFE`. -/
theorem kernel_chain_short_circuit (s : MetricSample) :
    (DPC_CRITICAL ≤ s.kernel.dpcs_stalls →
      kernelSummary (get_health_status s) = [("kernel_stalls", .THREAT)] ∧
      ∀ ctx : Nat,
        get_health_status
            { s with kernel := { s.kernel with context_switches := ctx } } =
          get_health_status s) ∧
    (s.kernel.dpcs_stalls < DPC_CRITICAL →
      CONTEXT_SWITCH_CRITICAL ≤ s.kernel.context_switches →
      kernelSummary (get_health_status s) = [("kernel_ctx", .WARNING)]) ∧
    (s.kernel.dpcs_stalls < DPC_CRITICAL →
      s.kernel.context_switches < CONTEXT_SWITCH_CRITICAL →
      kernelSummary (get_health_status s) = [("kernel_status", .SAFE)]) := by
  refine ⟨fun hdpc => ⟨?_, fun ctx => ?_⟩, fun hdpc hctx => ?_, fun hdpc hctx => ?_⟩
  · rw [kernelSummary, kernelEntriesOf_get_health_status]
    simp [kernel_entry, if_pos hdpc]
  · simp only [get_health_status]
    have hk : kernel_entry { s.kernel with context_switches := ctx } =
        kernel_entry s.kernel := by
      simp [kernel_entry, if_pos hdpc]
    cases s.gpu <;> simp [hk]
  · rw [kernelSummary, kernelEntriesOf_get_health_status]
    rw [kernel_entry, if_neg (not_le.mpr hdpc), if_pos hctx]
    simp
  · rw [kernelSummary, kernelEntriesOf_get_health_status]
    rw [kernel_entry, if_neg (not_le.mpr hdpc), if_neg (not_le.mpr hctx)]
    simp

/-- C2 witness: on `sampleStall` (dpc_stalls = 500000), exactly one kernel
entry `kernel_stalls=THREAT` is emitted, and replacing the huge
context-switch count by 0 leaves the whole result unchanged. -/
theorem kernel_chain_short_circuit_witness :
    DPC_CRITICAL ≤ sampleStall.kernel.dpcs_stalls ∧
    kernelSummary (get_health_status sampleStall) = [("kernel_stalls", .THREAT)] ∧
    get_health_status
        { sampleStall with
            kernel := { sampleStall.kernel with context_switches := 0 } } =
      get_health_status sampleStall :=
  ⟨by decide,
   ((kernel_chain_short_circuit sampleStall).1 (by decide)).1,
   ((kernel_chain_short_circuit sampleStall).1 (by decide)).2 0⟩

lemma overall_from_statuses_cons (a : MetricStatus) (l : List MetricStatus) :
    overall_from_statuses (a :: l) = statusMax a (overall_from_statuses l) := by
  cases a <;>
    by_cases hT : MetricStatus.THREAT ∈ l <;>
      by_cases hW : MetricStatus.WARNING ∈ l <;>
        simp [overall_from_statuses, statusMax, MetricStatus.severity, hT, hW]

lemma severity_statusMax (a b : MetricStatus) :
    (statusMax a b).severity = max a.severity b.severity := by
  cases a <;> cases b <;> decide

/-- C3: the overall status of every classifier result is the most severe
entry status under SAFE < WARNING < THREAT, and the overall-status rule
yields SAFE on an empty entry set. -/
theorem overall_status_is_max_severity :
    (∀ l : List MetricStatus, overall_from_statuses l = l.foldr statusMax .SAFE) ∧
    (∀ l : List MetricStatus,
      (overall_from_statuses l).severity =
        (l.map MetricStatus.severity).foldr max 0) ∧
    overall_from_statuses [] = .SAFE ∧
    ∀ s : MetricSample,
      (get_health_status s).status =
        (statusesOf (get_health_status s)).foldr statusMax .SAFE := by
  have hfold : ∀ l : List MetricStatus,
      overall_from_statuses l = l.foldr statusMax .SAFE := by
    intro l
    induction l with
    | nil => rfl
    | cons a l ih => rw [overall_from_statuses_cons, ih, List.foldr_cons]
  have hsev : ∀ l : List MetricStatus,
      (overall_from_statuses l).severity =
        (l.map MetricStatus.severity).foldr max 0 := by
    intro l
    induction l with
    | nil => rfl
    | cons a l ih =>
        rw [overall_from_statuses_cons, severity_statusMax, ih]
        simp
  refine ⟨hfold, hsev, rfl, fun s => ?_⟩
  have hs : (get_health_status s).status =
      overall_from_statuses (statusesOf (get_health_status s)) := rfl
  rw [hs, hfold]

/-- A sample with a GPU present and all values nominal, used as a
concrete test input. -/
def sampleGpu : MetricSample :=
  { timestamp := 0
    cpu := { usage_percent := 50, temperature := 60 }
    gpu := some { name := "RTX", usage := 30, temp := 55 }
    kernel := { context_switches := 10, interrupts := 2
                dpcs_stalls := 3, processes := 4 } }

/-- C4: a sample without GPU yields no gpu_temp/gpu_usage entries; a
sample with GPU yields both. -/
theorem gpu_entries_iff_gpu_present (s : MetricSample) :
    (s.gpu = none →
      "gpu_temp" ∉ detailKeys (get_health_status s) ∧
      "gpu_usage" ∉ detailKeys (get_health_status s)) ∧
    ∀ g : GpuMetrics, s.gpu = some g →
      "gpu_temp" ∈ detailKeys (get_health_status s) ∧
      "gpu_usage" ∈ detailKeys (get_health_status s) := by
  refine ⟨fun hnone => ?_, fun g hsome => ?_⟩
  · rcases kernel_entry_key s.kernel with h | h | h <;>
      simp [detailKeys, get_health_status, hnone, h]
  · simp [detailKeys, get_health_status, hsome]

/-- C4 witness: concrete samples without and with a GPU. -/
theorem gpu_entries_iff_gpu_present_witness :
    ("gpu_temp" ∉ detailKeys (get_health_status sampleStall) ∧
     "gpu_usage" ∉ detailKeys (get_health_status sampleStall)) ∧
    ("gpu_temp" ∈ detailKeys (get_health_status sampleGpu) ∧
     "gpu_usage" ∈ detailKeys (get_health_status sampleGpu)) :=
  ⟨(gpu_entries_iff_gpu_present sampleStall).1 rfl,
   (gpu_entries_iff_gpu_present sampleGpu).2
     { name := "RTX", usage := 30, temp := 55 } rfl⟩

/-- C10: every classifier result contains cpu_temp, cpu_usage and exactly
one kernel entry; the entry set has exactly 3 entries without GPU and 5
with GPU, and is never empty. -/
theorem classifier_entry_shape (s : MetricSample) :
    "cpu_temp" ∈ detailKeys (get_health_status s) ∧
    "cpu_usage" ∈ detailKeys (get_health_status s) ∧
    (kernelEntriesOf (get_health_status s)).length = 1 ∧
    (get_health_status s).details.length = (if s.gpu.isSome then 5 else 3) ∧
    (get_health_status s).details ≠ [] := by
  refine ⟨?_, ?_, ?_, ?_, ?_⟩
  · cases hg : s.gpu <;> simp [detailKeys, get_health_status, hg]
  · cases hg : s.gpu <;> simp [detailKeys, get_health_status, hg]
  · rw [kernelEntriesOf_get_health_status]
    rfl
  · cases hg : s.gpu <;> simp [get_health_status, hg]
  · cases hg : s.gpu <;> simp [get_health_status, hg]

/-- The `full_data` record broadcast each tick (`app.py`, lines 58-61). -/
structure HealthRecord where
  metrics : MetricSample
  analysis : HealthStatus
deriving DecidableEq, Repr

/-- The global mutable state of `app.py` read or written by the session
endpoints: the `active_sessions` dict `{user_id: True/False}` (line 42),
modelled as a partial map. -/
structure AppState where
  active_sessions : Nat → Option Bool

/-- One successful pass of the body of `monitoring_loop` (`app.py`,
lines 53-65) as a function of the global state and the metrics sampled
this tick.  The body computes `get_health_status` on the sample and
broadcasts the combined record; it performs no lookup in
`active_sessions` (the session check was removed — comment at line 50). -/
def monitoring_cycle (_st : AppState) (current_metrics : MetricSample) :
    HealthRecord :=
  { metrics := current_metrics, analysis := get_health_status current_metrics }

/-- The `/session/start` endpoint (`app.py`, lines 92-98): sets the
calling user's flag in `active_sessions` to True. -/
def start_session (st : AppState) (user_id : Nat) : AppState :=
  { st with active_sessions :=
      fun u => if u = user_id then some true else st.active_sessions u }

/-- The `/session/stop` endpoint (`app.py`, lines 100-109): sets the
calling user's flag in `active_sessions` to False. -/
def stop_session (st : AppState) (user_id : Nat) : AppState :=
  { st with active_sessions :=
      fun u => if u = user_id then some false else st.active_sessions u }

/-- C6: the broadcast cycle never reads the session flags — two states
with arbitrary (possibly empty) `active_sessions` maps yield identical
records for the same sample, and running `/session/start` or
`/session/stop` first changes nothing. -/
theorem cycle_independent_of_sessions :
    (∀ (st1 st2 : AppState) (m : MetricSample),
      monitoring_cycle st1 m = monitoring_cycle st2 m) ∧
    (∀ (st : AppState) (u : Nat) (m : MetricSample),
      monitoring_cycle (start_session st u) m = monitoring_cycle st m ∧
      monitoring_cycle (stop_session st u) m = monitoring_cycle st m) :=
  ⟨fun _ _ _ => rfl, fun _ _ _ => ⟨rfl, rfl⟩⟩

/-- Outcome of one iteration of `monitoring_loop`: what was broadcast
(`none` when the cycle was abandoned), what was logged, how long the
loop sleeps afterwards, and whether it iterates again. -/
structure CycleResult where
  broadcastRecord : Option HealthRecord
  loggedError : Option String
  sleepSeconds : ℚ
  continues : Bool
deriving DecidableEq

/-- One iteration of `monitoring_loop` (`app.py`, lines 49-73), with the
three fallible effects of the `try` block — `get_system_metrics()`,
`get_health_status(...)` and `sio.emit(...)` — passed in as `Except`
values (a `.error` models that call raising an exception).  The
`except` clause catches any exception and prints it; the iteration then
sleeps the fixed 2 seconds (`asyncio.sleep(2)`, line 73) and the
`while True` loop continues. -/
def run_cycle (sample_step : Except String MetricSample)
    (evaluate_step : MetricSample → Except String HealthStatus)
    (emit_step : HealthRecord → Except String Unit) : CycleResult :=
  match sample_step with
  | .error e =>
      { broadcastRecord := none
        loggedError := some ("Error in monitoring loop: " ++ e)
        sleepSeconds := 2, continues := true }
  | .ok current_metrics =>
      match evaluate_step current_metrics with
      | .error e =>
          { broadcastRecord := none
            loggedError := some ("Error in monitoring loop: " ++ e)
            sleepSeconds := 2, continues := true }
      | .ok analysis_result =>
          let full_data : HealthRecord :=
            { metrics := current_metrics, analysis := analysis_result }
          match emit_step full_data with
          | .error e =>
              { broadcastRecord := none
                loggedError := some ("Error in monitoring loop: " ++ e)
                sleepSeconds := 2, continues := true }
          | .ok _ =>
              { broadcastRecord := some full_data
                loggedError := none
                sleepSeconds := 2, continues := true }

/-- C7: every iteration continues and sleeps the full fixed 2 seconds,
whatever happens; an exception in sampling, evaluation or publishing is
caught and logged and nothing is broadcast that cycle. -/
theorem cycle_failures_isolated
    (sample_step : Except String MetricSample)
    (evaluate_step : MetricSample → Except String HealthStatus)
    (emit_step : HealthRecord → Except String Unit) :
    (run_cycle sample_step evaluate_step emit_step).continues = true ∧
    (run_cycle sample_step evaluate_step emit_step).sleepSeconds = 2 ∧
    (∀ e, sample_step = .error e →
      (run_cycle sample_step evaluate_step emit_step).broadcastRecord = none ∧
      (run_cycle sample_step evaluate_step emit_step).loggedError =
        some ("Error in monitoring loop: " ++ e)) ∧
    (∀ m e, sample_step = .ok m → evaluate_step m = .error e →
      (run_cycle sample_step evaluate_step emit_step).broadcastRecord = none ∧
      (run_cycle sample_step evaluate_step emit_step).loggedError =
        some ("Error in monitoring loop: " ++ e)) ∧
    (∀ m a e, sample_step = .ok m → evaluate_step m = .ok a →
      emit_step { metrics := m, analysis := a } = .error e →
      (run_cycle sample_step evaluate_step emit_step).broadcastRecord = none ∧
      (run_cycle sample_step evaluate_step emit_step).loggedError =
        some ("Error in monitoring loop: " ++ e)) := by
  refine ⟨?_, ?_, fun e he => ?_, fun m e hm he => ?_, fun m a e hm ha he => ?_⟩
  · cases hs : sample_step with
    | error e => simp [run_cycle, hs]
    | ok m =>
        cases hev : evaluate_step m with
        | error e => simp [run_cycle, hs, hev]
        | ok a =>
            cases hem : emit_step { metrics := m, analysis := a } <;>
              simp [run_cycle, hs, hev, hem]
  · cases hs : sample_step with
    | error e => simp [run_cycle, hs]
    | ok m =>
        cases hev : evaluate_step m with
        | error e => simp [run_cycle, hs, hev]
        | ok a =>
            cases hem : emit_step { metrics := m, analysis := a } <;>
              simp [run_cycle, hs, hev, hem]
  · simp [run_cycle, he]
  · simp [run_cycle, hm, he]
  · simp [run_cycle, hm, ha, he]

/-- An evaluation step that never raises, used as a concrete test input. -/
def evaluate_ok : MetricSample → Except String HealthStatus :=
  fun m => .ok (get_health_status m)

/-- An emit step that never raises, used as a concrete test input. -/
def emit_ok : HealthRecord → Except String Unit :=
  fun _ => .ok ()

/-- C7 witness: a cycle whose sampling raises is abandoned with the error
logged, nothing broadcast, and the loop still sleeps 2 seconds and
continues. -/
theorem cycle_failures_isolated_witness :
    (run_cycle (Except.error "boom") evaluate_ok emit_ok).continues = true ∧
    (run_cycle (Except.error "boom") evaluate_ok emit_ok).sleepSeconds = 2 ∧
    (run_cycle (Except.error "boom") evaluate_ok emit_ok).broadcastRecord = none ∧
    (run_cycle (Except.error "boom") evaluate_ok emit_ok).loggedError =
      some ("Error in monitoring loop: " ++ "boom") :=
  ⟨(cycle_failures_isolated (Except.error "boom") evaluate_ok emit_ok).1,
   (cycle_failures_isolated (Except.error "boom") evaluate_ok emit_ok).2.1,
   ((cycle_failures_isolated (Except.error "boom") evaluate_ok emit_ok).2.2.1
     "boom" rfl).1,
   ((cycle_failures_isolated (Except.error "boom") evaluate_ok emit_ok).2.2.1
     "boom" rfl).2⟩

/-- One GPU as returned by `GPUtil.getGPUs()` (`monitor.py`, line 67). -/
structure GpuReading where
  name : String
  load : ℚ
  temperature : ℚ
deriving DecidableEq, Repr

/-- The result of `psutil.cpu_stats()` (`monitor.py`, line 78). -/
structure CpuStatsReading where
  ctx_switches : Nat
  interrupts : Nat
  soft_interrupts : Nat
deriving DecidableEq, Repr

/-- The raw OS readings consumed by one call of `get_system_metrics`
(`monitor.py`, lines 41-94).  Fallible OS calls are `Except` values: a
`.error` models the call, or a subsequent access to its result such as
indexing an empty reading list, raising an exception inside the
corresponding `try` block.  `sensors_coretemp`: `.ok (some t)` means
`psutil.sensors_temperatures()` has a 'coretemp' list whose first entry
reads `t`; `.ok none` means no 'coretemp' key, so the WMI fallback is
consulted.  `wmi_available`: whether the module-level `wmi.WMI()` call
succeeded (`monitor.py`, lines 8-11).  `wmi_thermal`: `.ok (some k)` is
a thermal-zone reading of `k` tenths of a Kelvin; `.ok none` an empty
thermal reading list. -/
structure OsReadings where
  cpu_percent : ℚ
  sensors_coretemp : Except String (Option ℚ)
  wmi_available : Bool
  wmi_thermal : Except String (Option ℤ)
  gpus : Except String (List GpuReading)
  cpu_stats : CpuStatsReading
  pids_count : Nat
  now : ℚ

/-- The temperature block of `get_system_metrics` (`monitor.py`, lines
48-62): `cpu_temp` starts at 0; the psutil coretemp reading is used if
present, else the WMI thermal zone (Kelvin*10 converted to Celsius);
any exception in the block leaves the 0 default. -/
def read_cpu_temp (r : OsReadings) : ℚ :=
  match r.sensors_coretemp with
  | .error _ => 0
  | .ok (some t) => t
  | .ok none =>
      if r.wmi_available then
        match r.wmi_thermal with
        | .error _ => 0
        | .ok none => 0
        | .ok (some kelvin) => ((kelvin : ℚ) - 2732) / 10
      else 0

/-- The GPU block of `get_system_metrics` (`monitor.py`, lines 64-75):
`gpu_data` is `None` when the query raises or returns no GPUs, else the
first GPU's name, load*100 and temperature. -/
def read_gpu (gpus : Except String (List GpuReading)) : Option GpuMetrics :=
  match gpus with
  | .error _ => none
  | .ok [] => none
  | .ok (g :: _) =>
      some { name := g.name, usage := g.load * 100, temp := g.temperature }

/-- `get_system_metrics` (`monitor.py`, lines 41-94) over the abstract
OS readings; total by construction, so no exception escapes. -/
def get_system_metrics (r : OsReadings) : MetricSample :=
  { timestamp := r.now
    cpu := { usage_percent := r.cpu_percent, temperature := read_cpu_temp r }
    gpu := read_gpu r.gpus
    kernel := { context_switches := r.cpu_stats.ctx_switches
                interrupts := r.cpu_stats.interrupts
                dpcs_stalls := r.cpu_stats.soft_interrupts
                processes := r.pids_count } }

/-- C8: the collector degrades gracefully — a failing or empty GPU query
yields `gpu = none`, an unreadable temperature sensor yields the 0
default, and in all cases a fully populated `MetricSample` is returned
(the Lean embedding is a total function, mirroring that no exception
escapes `get_system_metrics`). -/
theorem collector_defaults_on_failure (r : OsReadings) :
    (∀ e, r.gpus = .error e → (get_system_metrics r).gpu = none) ∧
    (r.gpus = .ok [] → (get_system_metrics r).gpu = none) ∧
    (∀ e, r.sensors_coretemp = .error e →
      (get_system_metrics r).cpu.temperature = 0) ∧
    (get_system_metrics r).cpu.usage_percent = r.cpu_percent ∧
    (get_system_metrics r).timestamp = r.now ∧
    (get_system_metrics r).kernel =
      { context_switches := r.cpu_stats.ctx_switches
        interrupts := r.cpu_stats.interrupts
        dpcs_stalls := r.cpu_stats.soft_interrupts
        processes := r.pids_count } := by
  refine ⟨fun e he => ?_, fun he => ?_, fun e he => ?_, rfl, rfl, rfl⟩
  · simp [get_system_metrics, read_gpu, he]
  · simp [get_system_metrics, read_gpu, he]
  · simp [get_system_metrics, read_cpu_temp, he]

/-- OS readings where both the temperature sensors and the GPU query
raise, used as a concrete test input. -/
def failedReadings : OsReadings :=
  { cpu_percent := 12
    sensors_coretemp := .error "unreadable"
    wmi_available := false
    wmi_thermal := .error "no wmi"
    gpus := .error "no GPU found"
    cpu_stats := { ctx_switches := 1, interrupts := 2, soft_interrupts := 3 }
    pids_count := 4
    now := 0 }

/-- C8 witness: on readings where the GPU query and temperature sensors
both raise, the sample still comes back with `gpu = none` and
temperature 0. -/
theorem collector_defaults_on_failure_witness :
    (get_system_metrics failedReadings).gpu = none ∧
    (get_system_metrics failedReadings).cpu.temperature = 0 ∧
    (get_system_metrics failedReadings).cpu.usage_percent =
      failedReadings.cpu_percent :=
  ⟨(collector_defaults_on_failure failedReadings).1 "no GPU found" rfl,
   (collector_defaults_on_failure failedReadings).2.2.1 "unreadable" rfl,
   (collector_defaults_on_failure failedReadings).2.2.2.1⟩

/-- Modelled from the spec: the Subscriber Registry (spec §3, §4.4).  Its
fan-out is implemented by the external python-socketio library behind
`sio.emit('metrics_update', full_data)` (`app.py`, line 65), whose code
is not part of this repository.  A subscriber is a connection handle
with an `id` and a `send(record) -> success|failure` capability, whose
outcome for the current tick is abstracted as a boolean. -/
structure Subscriber where
  id : Nat
  sendOk : Bool
deriving DecidableEq, Repr

/-- Modelled from the spec: `publish(record)` delivers the record to
every registered subscriber independently; a delivery failure to one
subscriber does not prevent delivery to the others and triggers that
subscriber's removal from the registry, not a loop-wide error (spec
§4.4).  Returns the deliveries made this tick and the registry left for
the next tick. -/
def publish (record : HealthRecord) :
    List Subscriber → List (Nat × HealthRecord) × List Subscriber
  | [] => ([], [])
  | s :: rest =>
      let (delivered, remaining) := publish record rest
      if s.sendOk then ((s.id, record) :: delivered, s :: remaining)
      else (delivered, remaining)

lemma publish_eq (record : HealthRecord) (l : List Subscriber) :
    publish record l =
      ((l.filter (fun s => s.sendOk)).map (fun s => (s.id, record)),
       l.filter (fun s => s.sendOk)) := by
  induction l with
  | nil => rfl
  | cons a rest ih =>
      by_cases h : a.sendOk <;> simp [publish, ih, List.filter_cons, h]

/-- C9: during publish every registered subscriber whose send succeeds
receives the record and stays registered — even when other subscribers'
sends fail — and a subscriber whose send fails is removed from the
registry before the next tick. -/
theorem publish_isolates_failures (record : HealthRecord)
    (subs : List Subscriber) (s : Subscriber) (hmem : s ∈ subs) :
    (s.sendOk = true →
      (s.id, record) ∈ (publish record subs).1 ∧
      s ∈ (publish record subs).2) ∧
    (s.sendOk = false → s ∉ (publish record subs).2) := by
  rw [publish_eq]
  refine ⟨fun hok => ⟨?_, ?_⟩, fun hfail => ?_⟩
  · exact List.mem_map_of_mem _ (List.mem_filter.mpr ⟨hmem, hok⟩)
  · exact List.mem_filter.mpr ⟨hmem, hok⟩
  · intro hcontra
    have := (List.mem_filter.mp hcontra).2
    rw [hfail] at this
    exact Bool.false_ne_true this

/-- A healthy subscriber, used as a concrete test input. -/
def subGood : Subscriber := { id := 1, sendOk := true }

/-- A subscriber whose send fails this tick, used as a concrete test
input. -/
def subBad : Subscriber := { id := 2, sendOk := false }

/-- A second healthy subscriber, used as a concrete test input. -/
def subGood2 : Subscriber := { id := 3, sendOk := true }

/-- A concrete broadcast record, used as a test input. -/
def recGpu : HealthRecord :=
  { metrics := sampleGpu, analysis := get_health_status sampleGpu }

/-- C9 witness: with a failing subscriber between two healthy ones, both
healthy subscribers still receive the record and stay registered, and
the failing one is removed. -/
theorem publish_isolates_failures_witness :
    ((subGood.id, recGpu) ∈ (publish recGpu [subGood, subBad, subGood2]).1 ∧
     subGood ∈ (publish recGpu [subGood, subBad, subGood2]).2) ∧
    ((subGood2.id, recGpu) ∈ (publish recGpu [subGood, subBad, subGood2]).1 ∧
     subGood2 ∈ (publish recGpu [subGood, subBad, subGood2]).2) ∧
    subBad ∉ (publish recGpu [subGood, subBad, subGood2]).2 :=
  ⟨(publish_isolates_failures recGpu [subGood, subBad, subGood2] subGood
      (by simp)).1 rfl,
   (publish_isolates_failures recGpu [subGood, subBad, subGood2] subGood2
      (by simp)).1 rfl,
   (publish_isolates_failures recGpu [subGood, subBad, subGood2] subBad
      (by simp)).2 rfl⟩

/-- C10 witness: on a concrete sample with GPU, the required entries are
present, exactly one kernel entry exists, and the entry set is
non-empty with exactly 5 entries. -/
theorem classifier_entry_shape_witness :
    "cpu_temp" ∈ detailKeys (get_health_status sampleGpu) ∧
    "cpu_usage" ∈ detailKeys (get_health_status sampleGpu) ∧
    (kernelEntriesOf (get_health_status sampleGpu)).length = 1 ∧
    (get_health_status sampleGpu).details.length = 5 ∧
    (get_health_status sampleGpu).details ≠ [] :=
  ⟨(classifier_entry_shape sampleGpu).1,
   (classifier_entry_shape sampleGpu).2.1,
   (classifier_entry_shape sampleGpu).2.2.1,
   ((classifier_entry_shape sampleGpu).2.2.2.1).trans (by rfl),
   (classifier_entry_shape sampleGpu).2.2.2.2⟩
